import Mathlib

/-!
Verification of the orchestration core of the 3D-Gaussian-Splatting training
pipeline (`src/utils.py`, `src/commands.py`, `src/trainer.py`, `src/config.py`).

The Python code is shallowly embedded: filesystem state is passed explicitly
(directory listings, an existence predicate for files), subprocess outcomes are
supplied by an explicit world of exit codes, and the functions of the source are
translated one-to-one into executable Lean definitions.
-/

/-! ### Python-style string helpers

`detect_existing_checkpoints` (utils.py:146-175) extracts iteration numbers from
file and directory names with `str.replace`, `str.split` and `int(...)`.  The
helpers below model those operations on `List Char`.  `int(...)` is modelled on
its ASCII forms: optional surrounding whitespace, an optional sign, and a
non-empty digit string with single underscores allowed between digits.
-/

/-- Accumulating digit parser: digits with single underscores between digits,
as accepted by Python `int`. `acc` holds the value of the digits read so far. -/
def digitsCore : Nat → List Char → Option Nat
  | acc, [] => some acc
  | acc, '_' :: d :: rest =>
    if d.isDigit then digitsCore (10 * acc + (d.toNat - 48)) rest else none
  | _, ['_'] => none
  | acc, c :: rest =>
    if c.isDigit then digitsCore (10 * acc + (c.toNat - 48)) rest else none

/-- Non-empty digit string (underscore-grouped) to `Nat`, as in Python `int`. -/
def pyDigits : List Char → Option Nat
  | c :: rest => if c.isDigit then digitsCore (c.toNat - 48) rest else none
  | [] => none

/-- Model of Python `int(s)` on a string: strip whitespace, optional sign,
digits.  Returns `none` where Python raises `ValueError`. -/
def pyInt (l : List Char) : Option Int :=
  let t := ((l.dropWhile Char.isWhitespace).reverse.dropWhile Char.isWhitespace).reverse
  match t with
  | '-' :: rest => (pyDigits rest).map (fun n => -(n : Int))
  | '+' :: rest => (pyDigits rest).map (fun n => (n : Int))
  | _ => (pyDigits t).map (fun n => (n : Int))

/-- Fuel-driven core of Python `str.replace`: replaces every non-overlapping
occurrence of `pat` (left to right) by `repl`.  The fuel is the length of the
input, which suffices because each step consumes at least one character. -/
def replaceAllAux (pat repl : List Char) : Nat → List Char → List Char
  | 0, l => l
  | fuel + 1, l =>
    match l with
    | [] => []
    | c :: rest =>
      if pat ≠ [] ∧ pat.isPrefixOf l then
        repl ++ replaceAllAux pat repl fuel (l.drop pat.length)
      else
        c :: replaceAllAux pat repl fuel rest

/-- Model of Python `str.replace(pat, repl)`. -/
def replaceAll (pat repl l : List Char) : List Char :=
  replaceAllAux pat repl l.length l

/-- Model of Python `s.split(sep)[-1]` for a one-character separator: the
suffix after the last occurrence of `sep` (the whole string if absent). -/
def afterLastSep (sep : Char) (l : List Char) : List Char :=
  (l.reverse.takeWhile (fun c => c ≠ sep)).reverse

/-! ### Checkpoint Inventory (utils.py:146-175) -/

/-- Abstract state of a model output directory, as observed by
`detect_existing_checkpoints`: whether the directory exists, the names of the
entries directly under it, whether `point_cloud` exists, and the entries of
`point_cloud` together with their `is_dir()` status. -/
structure ModelDirState where
  dirExists : Bool
  entries : List String
  pointCloudExists : Bool
  pointCloudEntries : List (String × Bool)
deriving DecidableEq

/-- `glob("chkpnt*.pth")`: the name starts with `chkpnt`, ends with `.pth`,
and is long enough for the two fixed parts not to overlap. -/
def matchChkpnt (name : List Char) : Bool :=
  "chkpnt".data.isPrefixOf name && ".pth".data.isSuffixOf name && decide (10 ≤ name.length)

/-- Source A (utils.py:155-162): from a `chkpnt*.pth` name, take the stem
(`Path.stem` drops the final `.pth`), delete every occurrence of `chkpnt`
(`str.replace`), and parse the rest as an integer; `none` when the glob does
not match or the parse fails (the `except ValueError: continue`). -/
def parseChkpntName (name : String) : Option Int :=
  if matchChkpnt name.data then
    pyInt (replaceAll "chkpnt".data [] (name.data.take (name.data.length - 4)))
  else none

/-- Source B (utils.py:164-173): from an `iteration_*` directory name, parse
`name.split("_")[-1]` as an integer; `none` on glob mismatch or parse failure. -/
def parseIterationDirName (name : String) : Option Int :=
  if "iteration_".data.isPrefixOf name.data then
    pyInt (afterLastSep '_' name.data)
  else none

/-- Iterations contributed by the `chkpnt*.pth` files under the model
directory (the first loop of `detect_existing_checkpoints`). -/
def chkpntIters (entries : List String) : List Int :=
  entries.filterMap parseChkpntName

/-- Iterations contributed by the `point_cloud/iteration_*` subdirectories
(the second loop of `detect_existing_checkpoints`); entries that are not
directories are skipped by the `is_dir()` check. -/
def pointCloudIters (pcExists : Bool) (pcEntries : List (String × Bool)) : List Int :=
  if pcExists then
    pcEntries.filterMap (fun p => if p.2 then parseIterationDirName p.1 else none)
  else []

/-- `detect_existing_checkpoints` (utils.py:146-175): empty when the model
directory does not exist; otherwise the iterations collected from both
sources, sorted ascending (Python `sorted`, which does not deduplicate). -/
def detect_existing_checkpoints (st : ModelDirState) : List Int :=
  if st.dirExists then
    List.insertionSort (· ≤ ·)
      (chkpntIters st.entries ++ pointCloudIters st.pointCloudExists st.pointCloudEntries)
  else []

/-! ### Resume Resolver (utils.py:178-204) -/

/-- Python `max` over a non-empty list (the argument is never empty where the
source calls it; the default for `[]` is irrelevant). -/
def pyMax (l : List Int) : Int :=
  l.foldl max (l.headD 0)

/-- `get_resume_iteration` (utils.py:178-204): `0` when resume is disabled;
`0` (with a warning) when the inventory is empty; `max` of the inventory when
`resume_from_iteration == -1`; the requested iteration when it is in the
inventory; otherwise `max` of the inventory as a warned fallback. -/
def get_resume_iteration (resume_training : Bool) (resume_from_iteration : Int)
    (st : ModelDirState) : Int :=
  if !resume_training then 0
  else
    let existing := detect_existing_checkpoints st
    if existing = [] then 0
    else if resume_from_iteration = -1 then pyMax existing
    else if resume_from_iteration ∈ existing then resume_from_iteration
    else pyMax existing

/-! ### Job Configuration (config.py:5-46)

String-valued hyperparameters that the orchestrator only ever forwards with
`str(value)` (the float learning rates and thresholds among them) are modelled
by their rendered string.  A field is `none` when the configured value is
unset (`None`), in which case the builder omits its flag. -/

structure PathsConfig where
  source_path : String
  model_path : String
deriving DecidableEq

structure TrainingConfig where
  iterations : Int
  eval : Bool
  quiet : Bool
  disable_viewer : Bool
  densify_grad_threshold : Option String
  densification_interval : Option String
  densify_until_iter : Option String
  opacity_reset_interval : Option String
  position_lr_init : Option String
  position_lr_final : Option String
  position_lr_delay_mult : Option String
  position_lr_max_steps : Option String
  scaling_lr : Option String
  rotation_lr : Option String
  opacity_lr : Option String
  feature_lr : Option String
  resolution : Option String
  lambda_dssim : Option String
  sh_degree : Option String
  data_device : Option String
  optimizer_type : Option String
  test_iterations : List Int
  save_iterations : List Int
  checkpoint_iterations : List Int
  resume_training : Bool
  resume_from_iteration : Int
deriving DecidableEq

/-! ### Command Builder (commands.py:35-131) -/

/-- One entry of the `arg_map` loop body: flag plus value when the looked-up
parameter is not `None`, nothing otherwise. -/
def optFlag (flag : String) (v : Option String) : List String :=
  match v with
  | some s => [flag, s]
  | none => []

/-- The `for attr, flag in arg_map.items()` loop over a parameter table. -/
def optArgs : List (String × Option String) → List String
  | [] => []
  | pr :: rest => optFlag pr.1 pr.2 ++ optArgs rest

/-- The `arg_map` of `build_train_command` (commands.py:43-58) joined with the
`params` lookup (commands.py:61-65), in the dict insertion order the loop
iterates in; `iterations` is overridden to the segment's `end_iter`. -/
def argTable (paths : PathsConfig) (cfg : TrainingConfig) (end_iter : Int) :
    List (String × Option String) :=
  [("--source_path", some paths.source_path),
   ("--model_path", some paths.model_path),
   ("--iterations", some (toString end_iter)),
   ("--densify_grad_threshold", cfg.densify_grad_threshold),
   ("--densification_interval", cfg.densification_interval),
   ("--densify_until_iter", cfg.densify_until_iter),
   ("--opacity_reset_interval", cfg.opacity_reset_interval),
   ("--position_lr_init", cfg.position_lr_init),
   ("--position_lr_final", cfg.position_lr_final),
   ("--scaling_lr", cfg.scaling_lr),
   ("--resolution", cfg.resolution),
   ("--lambda_dssim", cfg.lambda_dssim),
   ("--data_device", cfg.data_device),
   ("--optimizer_type", cfg.optimizer_type)]

/-- A bare boolean flag, appended when the configured boolean is true. -/
def boolFlag (b : Bool) (flag : String) : List String :=
  if b then [flag] else []

/-- The boolean-flag loop of `build_train_command` (commands.py:72-74). -/
def boolArgs (cfg : TrainingConfig) : List String :=
  boolFlag cfg.eval "--eval" ++ boolFlag cfg.quiet "--quiet" ++
    boolFlag cfg.disable_viewer "--disable_viewer"

/-- A list-valued parameter: flag followed by all values, omitted when the
list is empty (Python truthiness of the list, commands.py:77-79). -/
def listFlag (flag : String) (vs : List Int) : List String :=
  if vs = [] then [] else flag :: vs.map toString

/-- The list-parameter loop of `build_train_command` (commands.py:77-79). -/
def listArgs (cfg : TrainingConfig) : List String :=
  listFlag "--test_iterations" cfg.test_iterations ++
    listFlag "--save_iterations" cfg.save_iterations ++
    listFlag "--checkpoint_iterations" cfg.checkpoint_iterations

/-- The checkpoint file path computed at commands.py:84:
`f"{model_path}/chkpnt{start_iter}.pth"`. -/
def checkpointPath (paths : PathsConfig) (start_iter : Int) : String :=
  paths.model_path ++ "/chkpnt" ++ toString start_iter ++ ".pth"

/-- The resume logic of `build_train_command` (commands.py:81-97):
when the segment is not the first segment of a fresh run, append
`--start_checkpoint` with the checkpoint path if that file exists; otherwise
log a warning and append nothing.  `fileExists` is the observed filesystem. -/
def resumeArgs (paths : PathsConfig) (fileExists : String → Bool)
    (start_iter : Int) (is_first_segment : Bool) : List String :=
  if 0 < start_iter ∨ is_first_segment = false then
    if fileExists (checkpointPath paths start_iter) then
      ["--start_checkpoint", checkpointPath paths start_iter]
    else []
  else []

/-- `CommandBuilder.build_train_command` (commands.py:35-99). -/
def build_train_command (paths : PathsConfig) (cfg : TrainingConfig)
    (fileExists : String → Bool) (start_iter end_iter : Int)
    (is_first_segment : Bool) : List String :=
  ["uv", "run", "python", "train.py"] ++ optArgs (argTable paths cfg end_iter) ++
    boolArgs cfg ++ listArgs cfg ++ resumeArgs paths fileExists start_iter is_first_segment

/-- `CommandBuilder.build_render_command` (commands.py:101-117).  The
iteration selector is appended under Python truthiness (`if iteration:`),
so it is absent both for `None` and for `0`. -/
def build_render_command (paths : PathsConfig) (quiet : Bool)
    (iteration : Option Int) : List String :=
  ["uv", "run", "python", "render.py",
   "--model_path", paths.model_path, "--source_path", paths.source_path] ++
    (match iteration with
     | some i => if i = 0 then [] else ["--iteration", toString i]
     | none => []) ++
    boolFlag quiet "--quiet"

/-- `CommandBuilder.build_metrics_command` (commands.py:119-131): the model
path only; the iteration argument has no effect on the built list. -/
def build_metrics_command (paths : PathsConfig) : List String :=
  ["uv", "run", "python", "metrics.py", "--model_paths", paths.model_path]

/-! ### Segment Scheduler (trainer.py:59-120) -/

/-- Python `sorted(set(l))`: deduplicate, then sort ascending. -/
def pySortedSet (l : List Int) : List Int :=
  List.insertionSort (· ≤ ·) l.dedup

/-- The evaluation boundaries of `_execute_training_flow` (trainer.py:86-96):
merge test and save iterations, deduplicate and sort, keep the points strictly
between the resume point and the total, then append the total when the list is
empty or its maximum falls short of the total. -/
def eval_points (resume_iter total_iters : Int) (test save : List Int) : List Int :=
  let pts := (pySortedSet (test ++ save)).filter
    (fun p => resume_iter < p ∧ p < total_iters)
  if pts = [] ∨ pyMax pts < total_iters then pts ++ [total_iters] else pts

/-- The segment loop of `_execute_training_flow` (trainer.py:100-114): walk the
boundaries, skipping any boundary not beyond the current start (`continue`),
otherwise emitting the segment and advancing the start to the boundary. -/
def segments (start_iter : Int) : List Int → List (Int × Int)
  | [] => []
  | e :: rest =>
    if e ≤ start_iter then segments start_iter rest
    else (start_iter, e) :: segments e rest

/-- One stage call performed by the training flow. -/
inductive PipelineStage where
  | trainSeg (start_iter end_iter : Int)
  | render (iteration : Option Int)
  | metrics (iteration : Option Int)
deriving DecidableEq

/-- The per-segment stage triple of the intermediate-evaluation loop
(trainer.py:107-113): train the segment, then render and evaluate at its end
boundary. -/
def segmentStages : List (Int × Int) → List PipelineStage
  | [] => []
  | (s, e) :: rest =>
    .trainSeg s e :: .render (some e) :: .metrics (some e) :: segmentStages rest

/-- `GaussianSplattingTrainer._execute_training_flow` (trainer.py:59-120) as
the ordered list of stage calls it performs: when the resume point already
meets the total, only the final render and metrics pass; with intermediate
evaluation disabled, a single full segment then the final pass; otherwise the
scheduled segments with their evaluations, then the final pass. -/
def execute_training_flow (resume_iter total_iters : Int) (test save : List Int)
    (intermediate_eval : Bool) : List PipelineStage :=
  if total_iters ≤ resume_iter then
    [.render none, .metrics none]
  else if !intermediate_eval then
    [.trainSeg resume_iter total_iters, .render none, .metrics none]
  else
    segmentStages (segments resume_iter (eval_points resume_iter total_iters test save)) ++
      [.render none, .metrics none]

/-! ### Process Supervisor (commands.py:134-186) and pipeline outcome -/

/-- The observable result of one `subprocess.run` call. -/
structure SubprocResult where
  exitCode : Int
  stdout : String
  stderr : String

/-- The outcomes the external toolchain produces for each stage invocation:
training segments report an exit code; render and metrics report a full
captured result. -/
structure ExecWorld where
  trainExit : Int → Int → Int
  renderResult : Option Int → SubprocResult
  metricsResult : Option Int → SubprocResult

inductive LogLevel where
  | info
  | success
  | warning
  | error
deriving DecidableEq

structure LogEvent where
  level : LogLevel
  msg : String
deriving DecidableEq

/-- `CommandExecutor.run_training_segment` (commands.py:141-149): streams
output, and raises `RuntimeError` on a non-zero exit. -/
def run_training_segment (exitCode : Int) (start_iter end_iter : Int) :
    List LogEvent × Except String Unit :=
  if exitCode = 0 then
    ([⟨.success, "训练段 " ++ toString start_iter ++ "->" ++ toString end_iter ++ " 完成。"⟩],
     .ok ())
  else
    ([], .error ("训练段失败 (返回码 " ++ toString exitCode ++ ")"))

/-- The log label computed at commands.py:156/173. -/
def stageLabel (noun : String) (finalNoun : String) (iteration : Option Int) : String :=
  match iteration with
  | some i => noun ++ " (迭代: " ++ toString i ++ ")"
  | none => finalNoun

/-- `CommandExecutor.run_rendering` (commands.py:151-166): a no-op when
rendering is disabled; otherwise captures output, logs success, and on a
non-zero exit logs an error carrying the captured stderr — it never raises. -/
def run_rendering (enable_render : Bool) (iteration : Option Int)
    (res : SubprocResult) : List LogEvent × Except String Unit :=
  if !enable_render then ([], .ok ())
  else
    let label := stageLabel "渲染" "最终渲染" iteration
    if res.exitCode = 0 then
      ([⟨.info, "开始 " ++ label ++ "..."⟩, ⟨.success, label ++ " 完成。"⟩], .ok ())
    else
      ([⟨.info, "开始 " ++ label ++ "..."⟩,
        ⟨.error, label ++ " 失败 (返回码 " ++ toString res.exitCode ++ "): " ++ res.stderr⟩],
       .ok ())

/-- `CommandExecutor.run_metrics` (commands.py:168-185): same
capture-and-continue policy as rendering, additionally surfacing the captured
stdout on success — it never raises. -/
def run_metrics (enable_metrics : Bool) (iteration : Option Int)
    (res : SubprocResult) : List LogEvent × Except String Unit :=
  if !enable_metrics then ([], .ok ())
  else
    let label := stageLabel "评估" "最终评估" iteration
    if res.exitCode = 0 then
      ([⟨.info, "开始 " ++ label ++ "..."⟩, ⟨.success, label ++ " 完成。"⟩,
        ⟨.info, "评估结果:" ++ res.stdout⟩], .ok ())
    else
      ([⟨.info, "开始 " ++ label ++ "..."⟩,
        ⟨.error, label ++ " 失败 (返回码 " ++ toString res.exitCode ++ "): " ++ res.stderr⟩],
       .ok ())

/-- Dispatch one pipeline stage to its executor method. -/
def runStage (w : ExecWorld) (enable_render enable_metrics : Bool) :
    PipelineStage → List LogEvent × Except String Unit
  | .trainSeg s e => run_training_segment (w.trainExit s e) s e
  | .render it => run_rendering enable_render it (w.renderResult it)
  | .metrics it => run_metrics enable_metrics it (w.metricsResult it)

/-- Result of driving a list of stages: the emitted log, the stages that were
actually entered, and whether the run completed (no uncaught stage failure). -/
structure RunResult where
  logs : List LogEvent
  executed : List PipelineStage
  completed : Bool
deriving DecidableEq

/-- Sequential stage driver (trainer.py:45-57 together with the flow body):
each stage runs to completion; an exception from a stage (only training can
raise one) aborts the run, so later stages are not entered. -/
def runStages (w : ExecWorld) (enable_render enable_metrics : Bool) :
    List PipelineStage → RunResult
  | [] => ⟨[], [], true⟩
  | st :: rest =>
    let (lg, r) := runStage w enable_render enable_metrics st
    match r with
    | .ok _ =>
      let res := runStages w enable_render enable_metrics rest
      ⟨lg ++ res.logs, st :: res.executed, res.completed⟩
    | .error _ => ⟨lg, [st], false⟩

/-! ### Working-directory ownership (utils.py:70-81) -/

/-- Process state seen by `chdir_context`: the current working directory plus
whatever else the wrapped body manipulates (`σ`). -/
structure OSState (σ : Type) where
  cwd : String
  world : σ

/-- `chdir_context` (utils.py:70-81): save the current working directory,
switch to `path`, run the body, and restore the saved directory in a
`finally` block — on the normal path and on the exception path alike.  The
body returns its final state together with `.ok` or a raised exception. -/
def chdir_context {σ ε α : Type} (path : String)
    (body : OSState σ → OSState σ × Except ε α) (s : OSState σ) :
    OSState σ × Except ε α :=
  let original := s.cwd
  let (s1, r) := body { s with cwd := path }
  ({ s1 with cwd := original }, r)

/-! ### Flag-collision safety

The builder emits configured values verbatim.  The theorems about flag
occurrences assume the configured values do not themselves spell one of the
builder's flag tokens (true of every real configuration; `str` of a number can
never start with `--`). -/

/-- Every flag token the builder can emit, plus the unmapped hyperparameter
flags and the render iteration selector. -/
def flagUniverse : List String :=
  ["--source_path", "--model_path", "--iterations", "--densify_grad_threshold",
   "--densification_interval", "--densify_until_iter", "--opacity_reset_interval",
   "--position_lr_init", "--position_lr_final", "--scaling_lr", "--resolution",
   "--lambda_dssim", "--data_device", "--optimizer_type", "--eval", "--quiet",
   "--disable_viewer", "--test_iterations", "--save_iterations",
   "--checkpoint_iterations", "--start_checkpoint", "--rotation_lr", "--opacity_lr",
   "--feature_lr", "--sh_degree", "--position_lr_delay_mult",
   "--position_lr_max_steps", "--iteration"]

/-- An optional value that never spells a flag token. -/
def SafeVal (v : Option String) : Prop :=
  ∀ s, v = some s → s ∉ flagUniverse

instance (v : Option String) : Decidable (SafeVal v) :=
  match v with
  | none => isTrue (by intro s h; cases h)
  | some s =>
    if h : s ∈ flagUniverse then
      isFalse (fun hs => (hs s rfl) h)
    else
      isTrue (fun t ht => by cases ht; exact h)

/-- No configured value involved in a built training command spells a flag
token: the two paths, the rendered segment end, the checkpoint path for the
segment start, the mapped optional hyperparameters, and the rendered members
of the three iteration lists. -/
def SafeConfig (paths : PathsConfig) (cfg : TrainingConfig) (start_iter end_iter : Int) : Prop :=
  paths.source_path ∉ flagUniverse ∧
  paths.model_path ∉ flagUniverse ∧
  toString end_iter ∉ flagUniverse ∧
  checkpointPath paths start_iter ∉ flagUniverse ∧
  SafeVal cfg.densify_grad_threshold ∧
  SafeVal cfg.densification_interval ∧
  SafeVal cfg.densify_until_iter ∧
  SafeVal cfg.opacity_reset_interval ∧
  SafeVal cfg.position_lr_init ∧
  SafeVal cfg.position_lr_final ∧
  SafeVal cfg.scaling_lr ∧
  SafeVal cfg.resolution ∧
  SafeVal cfg.lambda_dssim ∧
  SafeVal cfg.data_device ∧
  SafeVal cfg.optimizer_type ∧
  (∀ v ∈ cfg.test_iterations, toString v ∉ flagUniverse) ∧
  (∀ v ∈ cfg.save_iterations, toString v ∉ flagUniverse) ∧
  (∀ v ∈ cfg.checkpoint_iterations, toString v ∉ flagUniverse)

instance (paths : PathsConfig) (cfg : TrainingConfig) (s e : Int) :
    Decidable (SafeConfig paths cfg s e) := by
  unfold SafeConfig
  infer_instance

/-- Number of flag occurrences a parameter table contributes for a token:
one per entry whose flag is the token and whose value is set. -/
def tableCount (tok : String) : List (String × Option String) → Nat
  | [] => 0
  | pr :: rest => (if pr.1 = tok ∧ pr.2.isSome then 1 else 0) + tableCount tok rest

/-! ### Concrete sample inputs used by witnesses and counterexamples -/

/-- A model directory where both naming sources report iteration 7000. -/
def bothSourcesState : ModelDirState :=
  ⟨true, ["chkpnt7000.pth"], true, [("iteration_7000", true)]⟩

/-- A model directory with checkpoints 7000 and 30000 and an unparsable name. -/
def twoCheckpointState : ModelDirState :=
  ⟨true, ["chkpnt7000.pth", "chkpnt30000.pth", "chkpntfinal.pth"], false, []⟩

/-- A typical paths section (absolute paths after normalisation). -/
def samplePaths : PathsConfig :=
  ⟨"/data/scene", "/out/model"⟩

/-- The dataclass defaults of `TrainingConfig` (config.py:5-39), with the
float-valued fields carried as their rendered strings. -/
def sampleConfig : TrainingConfig :=
  ⟨30000, true, false, true, some "0.0002", some "100", some "15000", some "3000",
   some "0.00016", some "0.0000016", some "0.01", some "30000", some "0.005",
   some "0.001", some "0.05", some "0.0025", some "-1", some "0.2", some "3",
   some "cuda", some "default", [7000, 30000], [7000, 30000], [], false, -1⟩

/-- A toolchain in which every stage succeeds. -/
def worldAllOk : ExecWorld :=
  ⟨fun _ _ => 0, fun _ => ⟨0, "", ""⟩, fun _ => ⟨0, "", ""⟩⟩

/-- A toolchain in which every render and metrics call fails with diagnostics
on stderr, while training succeeds. -/
def worldEvalFails : ExecWorld :=
  ⟨fun _ _ => 0, fun _ => ⟨1, "", "cuda error"⟩, fun _ => ⟨2, "", "no renders"⟩⟩

/-! ## Theorems -/

/-! ### Helper lemmas about Python `max` -/

theorem foldl_max_le (l : List Int) :
    ∀ a : Int, a ≤ l.foldl max a ∧ ∀ x ∈ l, x ≤ l.foldl max a := by
  induction l with
  | nil => intro a; exact ⟨le_refl a, by simp⟩
  | cons b t ih =>
    intro a
    have h := ih (max a b)
    refine ⟨le_trans (le_max_left a b) h.1, ?_⟩
    intro x hx
    rcases List.mem_cons.mp hx with rfl | hx
    · exact le_trans (le_max_right a x) h.1
    · exact h.2 x hx

theorem foldl_max_mem (l : List Int) :
    ∀ a : Int, l.foldl max a = a ∨ l.foldl max a ∈ l := by
  induction l with
  | nil => intro a; left; rfl
  | cons b t ih =>
    intro a
    rw [List.foldl_cons]
    rcases ih (max a b) with h | h
    · rcases max_choice a b with hm | hm
      · left; rw [h, hm]
      · right; rw [h, hm]; exact List.mem_cons_self b t
    · right; exact List.mem_cons_of_mem b h

theorem pyMax_mem {l : List Int} (h : l ≠ []) : pyMax l ∈ l := by
  cases l with
  | nil => exact absurd rfl h
  | cons c t =>
    unfold pyMax
    rw [List.headD_cons, List.foldl_cons, max_self]
    rcases foldl_max_mem t c with h | h
    · rw [h]; exact List.mem_cons_self c t
    · exact List.mem_cons_of_mem c h

theorem le_pyMax {l : List Int} {x : Int} (h : x ∈ l) : x ≤ pyMax l :=
  (foldl_max_le l (l.headD 0)).2 x h

/-! ### Helper lemmas about the stage executors -/

theorem run_rendering_never_raises (b : Bool) (it : Option Int) (res : SubprocResult) :
    (run_rendering b it res).2 = Except.ok () := by
  unfold run_rendering
  split_ifs <;> rfl

theorem run_metrics_never_raises (b : Bool) (it : Option Int) (res : SubprocResult) :
    (run_metrics b it res).2 = Except.ok () := by
  unfold run_metrics
  split_ifs <;> rfl

theorem runStages_cons_ok (w : ExecWorld) (eR eM : Bool) (st : PipelineStage)
    (rest : List PipelineStage) (h : (runStage w eR eM st).2 = Except.ok ()) :
    runStages w eR eM (st :: rest) =
      ⟨(runStage w eR eM st).1 ++ (runStages w eR eM rest).logs,
       st :: (runStages w eR eM rest).executed,
       (runStages w eR eM rest).completed⟩ := by
  rcases hs : runStage w eR eM st with ⟨lg, r⟩
  rw [hs] at h
  simp only at h
  subst h
  simp [runStages, hs]

theorem runStages_cons_err (w : ExecWorld) (eR eM : Bool) (st : PipelineStage)
    (rest : List PipelineStage) (m : String)
    (h : (runStage w eR eM st).2 = Except.error m) :
    runStages w eR eM (st :: rest) = ⟨(runStage w eR eM st).1, [st], false⟩ := by
  rcases hs : runStage w eR eM st with ⟨lg, r⟩
  rw [hs] at h
  simp only at h
  subst h
  simp [runStages, hs]

theorem runStage_render_ok (w : ExecWorld) (eR eM : Bool) (it : Option Int) :
    (runStage w eR eM (.render it)).2 = Except.ok () :=
  run_rendering_never_raises eR it (w.renderResult it)

theorem runStage_metrics_ok (w : ExecWorld) (eR eM : Bool) (it : Option Int) :
    (runStage w eR eM (.metrics it)).2 = Except.ok () :=
  run_metrics_never_raises eM it (w.metricsResult it)

/-- Note C5. When the resolved start iteration already meets or exceeds the
total target, the training flow performs no training segment: it is exactly
the final render pass followed by the final metrics pass, and it completes
for every toolchain behaviour. -/
theorem claim5_already_complete (r t : Int) (test save : List Int) (ie : Bool)
    (h : t ≤ r) :
    execute_training_flow r t test save ie = [.render none, .metrics none] ∧
    (∀ s e, PipelineStage.trainSeg s e ∉ execute_training_flow r t test save ie) ∧
    (∀ w eR eM, (runStages w eR eM (execute_training_flow r t test save ie)).completed = true) := by
  have hflow : execute_training_flow r t test save ie = [.render none, .metrics none] := by
    unfold execute_training_flow
    rw [if_pos h]
  refine ⟨hflow, ?_, ?_⟩
  · intro s e hmem
    rw [hflow] at hmem
    simp at hmem
  · intro w eR eM
    rw [hflow, runStages_cons_ok w eR eM _ _ (runStage_render_ok w eR eM none),
      runStages_cons_ok w eR eM _ _ (runStage_metrics_ok w eR eM none)]
    simp [runStages]

/-- Witness for C5: a job already at its target of 30000 iterations performs
only the final render and metrics pass and completes. -/
theorem claim5_witness :
    execute_training_flow 30000 30000 [7000, 30000] [7000, 30000] true =
      [.render none, .metrics none] ∧
    (runStages worldAllOk true true
      (execute_training_flow 30000 30000 [7000, 30000] [7000, 30000] true)).completed = true := by
  have h := claim5_already_complete 30000 30000 [7000, 30000] [7000, 30000] true (le_refl _)
  exact ⟨h.1, h.2.2 worldAllOk true true⟩

/-- Note C9. The working-directory context restores the original working
directory on every exit path: whatever the body does to the state and whether
it returns normally or raises, the resulting working directory equals the
original one, while the body's outcome and its effect on the rest of the
state are passed through unchanged. -/
theorem claim9_chdir_restore {σ ε α : Type} (path : String)
    (body : OSState σ → OSState σ × Except ε α) (s : OSState σ) :
    (chdir_context path body s).1.cwd = s.cwd ∧
    (chdir_context path body s).2 = (body { s with cwd := path }).2 ∧
    (chdir_context path body s).1.world = (body { s with cwd := path }).1.world := by
  rcases hb : body { s with cwd := path } with ⟨s1, r⟩
  simp [chdir_context, hb]

/-- Note C10. A render command built for iteration 0 carries no iteration
selector: it is the same argument list as the one built for the unconditional
final pass, because the selector is appended only under Python truthiness. -/
theorem claim10_render_iteration_zero (paths : PathsConfig) (quiet : Bool)
    (h1 : paths.model_path ≠ "--iteration") (h2 : paths.source_path ≠ "--iteration") :
    build_render_command paths quiet (some 0) = build_render_command paths quiet none ∧
    "--iteration" ∉ build_render_command paths quiet (some 0) := by
  constructor
  · simp [build_render_command]
  · intro hmem
    cases hq : quiet <;>
      simp [build_render_command, boolFlag, hq, h1.symm, h2.symm] at hmem

/-- Witness for C10: on a concrete configuration, the render command for
iteration 0 equals the final-pass render command and has no selector. -/
theorem claim10_witness :
    build_render_command samplePaths false (some 0) =
      build_render_command samplePaths false none ∧
    "--iteration" ∉ build_render_command samplePaths false (some 0) :=
  claim10_render_iteration_zero samplePaths false (by decide) (by decide)

/-- Note C3. The resume resolver returns 0 when resume is disabled regardless
of the disk state; 0 when resume is enabled but the inventory is empty; the
inventory maximum when the requested iteration is -1; the requested iteration
when it is a member of the inventory; and the inventory maximum as a fallback
otherwise.  The last clause certifies that `pyMax` is the maximum of the
inventory. -/
theorem claim3_resume_resolver (rt : Bool) (rf : Int) (st : ModelDirState) :
    (rt = false → get_resume_iteration rt rf st = 0) ∧
    (detect_existing_checkpoints st = [] → get_resume_iteration rt rf st = 0) ∧
    (rt = true → detect_existing_checkpoints st ≠ [] → rf = -1 →
      get_resume_iteration rt rf st = pyMax (detect_existing_checkpoints st)) ∧
    (rt = true → detect_existing_checkpoints st ≠ [] → rf ≠ -1 →
      rf ∈ detect_existing_checkpoints st → get_resume_iteration rt rf st = rf) ∧
    (rt = true → detect_existing_checkpoints st ≠ [] → rf ≠ -1 →
      rf ∉ detect_existing_checkpoints st →
      get_resume_iteration rt rf st = pyMax (detect_existing_checkpoints st)) ∧
    (detect_existing_checkpoints st ≠ [] →
      pyMax (detect_existing_checkpoints st) ∈ detect_existing_checkpoints st ∧
      ∀ x ∈ detect_existing_checkpoints st, x ≤ pyMax (detect_existing_checkpoints st)) := by
  refine ⟨?_, ?_, ?_, ?_, ?_, ?_⟩
  · intro h
    subst h
    rfl
  · intro hemp
    cases rt with
    | false => rfl
    | true => simp [get_resume_iteration, hemp]
  · intro hrt hne hrf
    subst hrt
    simp [get_resume_iteration, hne, hrf]
  · intro hrt hne hrf hmem
    subst hrt
    simp [get_resume_iteration, hne, hrf, hmem]
  · intro hrt hne hrf hmem
    subst hrt
    simp [get_resume_iteration, hne, hrf, hmem]
  · intro hne
    exact ⟨pyMax_mem hne, fun x hx => le_pyMax hx⟩

/-- Witness for C3 (the scenario of the claim): resume enabled, requested
iteration 15000, inventory from a directory holding checkpoints 7000 and
30000 (plus an unparsable `chkpntfinal.pth`, which is skipped): the resolver
falls back to the maximum, 30000. -/
theorem claim3_witness :
    detect_existing_checkpoints twoCheckpointState = [7000, 30000] ∧
    (15000 : Int) ∉ detect_existing_checkpoints twoCheckpointState ∧
    get_resume_iteration true 15000 twoCheckpointState =
      pyMax (detect_existing_checkpoints twoCheckpointState) ∧
    pyMax (detect_existing_checkpoints twoCheckpointState) = 30000 := by
  refine ⟨by decide, by decide, ?_, by decide⟩
  exact (claim3_resume_resolver true 15000 twoCheckpointState).2.2.2.2.1
    rfl (by decide) (by decide) (by decide)

/-! ### Helper lemmas about the command builder -/

theorem mem_optFlag {x flag : String} {v : Option String} :
    x ∈ optFlag flag v ↔ ∃ s, v = some s ∧ (x = flag ∨ x = s) := by
  cases v <;> simp [optFlag]

theorem mem_optArgs_iff {x : String} :
    ∀ {tbl : List (String × Option String)},
      x ∈ optArgs tbl ↔ ∃ pr ∈ tbl, x ∈ optFlag pr.1 pr.2 := by
  intro tbl
  induction tbl with
  | nil => simp [optArgs]
  | cons hd tl ih => simp [optArgs, List.mem_append, ih]

theorem safeVal_some {p : String} (hp : p ∉ flagUniverse) : SafeVal (some p) := by
  intro s hs
  cases hs
  exact hp

theorem not_mem_optFlag_safe {tok flag : String} {v : Option String}
    (hflag : flag ≠ tok) (hv : SafeVal v) (htok : tok ∈ flagUniverse) :
    tok ∉ optFlag flag v := by
  intro hmem
  obtain ⟨s, hs, hcase⟩ := mem_optFlag.mp hmem
  rcases hcase with h | h
  · exact hflag h.symm
  · exact hv s hs (h ▸ htok)

theorem not_mem_optArgs {tok : String} {tbl : List (String × Option String)}
    (htok : tok ∈ flagUniverse)
    (hflags : ∀ pr ∈ tbl, pr.1 ≠ tok)
    (hv : ∀ pr ∈ tbl, SafeVal pr.2) :
    tok ∉ optArgs tbl := by
  intro hmem
  obtain ⟨pr, hpr, hin⟩ := mem_optArgs_iff.mp hmem
  exact not_mem_optFlag_safe (hflags pr hpr) (hv pr hpr) htok hin

theorem argTable_safe {paths : PathsConfig} {cfg : TrainingConfig} {s e : Int}
    (hsafe : SafeConfig paths cfg s e) :
    ∀ pr ∈ argTable paths cfg e, SafeVal pr.2 := by
  obtain ⟨h1, h2, h3, _h4, hdgt, hdi, hdui, hori, hpli, hplf, hsl, hres, hld,
    hdd, hot, _⟩ := hsafe
  intro pr hpr
  fin_cases hpr
  · exact safeVal_some h1
  · exact safeVal_some h2
  · exact safeVal_some h3
  · exact hdgt
  · exact hdi
  · exact hdui
  · exact hori
  · exact hpli
  · exact hplf
  · exact hsl
  · exact hres
  · exact hld
  · exact hdd
  · exact hot

theorem not_mem_boolFlag {tok flag : String} (b : Bool) (h : flag ≠ tok) :
    tok ∉ boolFlag b flag := by
  cases b <;> simp [boolFlag]
  exact fun heq => h heq.symm

theorem not_mem_boolArgs {tok : String} (cfg : TrainingConfig)
    (h1 : tok ≠ "--eval") (h2 : tok ≠ "--quiet") (h3 : tok ≠ "--disable_viewer") :
    tok ∉ boolArgs cfg := by
  intro hmem
  rcases List.mem_append.mp hmem with hmem | hv
  · rcases List.mem_append.mp hmem with he | hq
    · exact not_mem_boolFlag _ h1.symm he
    · exact not_mem_boolFlag _ h2.symm hq
  · exact not_mem_boolFlag _ h3.symm hv

theorem not_mem_listFlag {tok flag : String} {vs : List Int}
    (hf : flag ≠ tok) (hv : ∀ v ∈ vs, toString v ∉ flagUniverse)
    (htok : tok ∈ flagUniverse) : tok ∉ listFlag flag vs := by
  unfold listFlag
  split_ifs with he
  · simp
  · intro hmem
    rcases List.mem_cons.mp hmem with h | h
    · exact hf h.symm
    · obtain ⟨v, hvmem, hveq⟩ := List.mem_map.mp h
      exact hv v hvmem (hveq ▸ htok)

theorem not_mem_listArgs {tok : String} {cfg : TrainingConfig}
    (htok : tok ∈ flagUniverse)
    (hti : ∀ v ∈ cfg.test_iterations, toString v ∉ flagUniverse)
    (hsi : ∀ v ∈ cfg.save_iterations, toString v ∉ flagUniverse)
    (hci : ∀ v ∈ cfg.checkpoint_iterations, toString v ∉ flagUniverse)
    (h1 : tok ≠ "--test_iterations") (h2 : tok ≠ "--save_iterations")
    (h3 : tok ≠ "--checkpoint_iterations") :
    tok ∉ listArgs cfg := by
  intro hmem
  rcases List.mem_append.mp hmem with hmem | hc
  · rcases List.mem_append.mp hmem with ht | hs
    · exact not_mem_listFlag h1.symm hti htok ht
    · exact not_mem_listFlag h2.symm hsi htok hs
  · exact not_mem_listFlag h3.symm hci htok hc

theorem not_mem_resumeArgs {tok : String} {paths : PathsConfig}
    {fe : String → Bool} {s : Int} {fst : Bool}
    (h1 : tok ≠ "--start_checkpoint") (h2 : checkpointPath paths s ≠ tok) :
    tok ∉ resumeArgs paths fe s fst := by
  unfold resumeArgs
  split_ifs <;> simp_all
  exact fun heq => h2 heq.symm

theorem flagUniverse_not_program (tok : String) (htok : tok ∈ flagUniverse) :
    tok ∉ ["uv", "run", "python", "train.py"] := by
  fin_cases htok <;> decide

theorem not_mem_cmd {paths : PathsConfig} {cfg : TrainingConfig}
    {fe : String → Bool} {s e : Int} {fst : Bool} {tok : String}
    (htok : tok ∈ flagUniverse)
    (hsafe : SafeConfig paths cfg s e)
    (hflags : ∀ pr ∈ argTable paths cfg e, pr.1 ≠ tok)
    (h1 : tok ≠ "--eval") (h2 : tok ≠ "--quiet") (h3 : tok ≠ "--disable_viewer")
    (h4 : tok ≠ "--test_iterations") (h5 : tok ≠ "--save_iterations")
    (h6 : tok ≠ "--checkpoint_iterations") (h7 : tok ≠ "--start_checkpoint") :
    tok ∉ build_train_command paths cfg fe s e fst := by
  intro hmem
  unfold build_train_command at hmem
  rcases List.mem_append.mp hmem with hmem | hres
  rcases List.mem_append.mp hmem with hmem | hlst
  rcases List.mem_append.mp hmem with hmem | hbool
  rcases List.mem_append.mp hmem with hlit | hopt
  · exact flagUniverse_not_program tok htok hlit
  · exact not_mem_optArgs htok hflags (argTable_safe hsafe) hopt
  · exact not_mem_boolArgs cfg h1 h2 h3 hbool
  · exact not_mem_listArgs htok hsafe.2.2.2.2.2.2.2.2.2.2.2.2.2.2.2.1
      hsafe.2.2.2.2.2.2.2.2.2.2.2.2.2.2.2.2.1 hsafe.2.2.2.2.2.2.2.2.2.2.2.2.2.2.2.2.2
      h4 h5 h6 hlst
  · exact not_mem_resumeArgs h7
      (fun heq => hsafe.2.2.2.1 (heq ▸ htok)) hres

/-- Note C2. The built training command carries the resume flag
`--start_checkpoint` (with the `chkpnt<start_iter>.pth` path under the model
directory) if and only if the segment is not the first segment of a fresh run
(`0 < start_iter` or `is_first_segment` is false) and that checkpoint file
exists; in particular the first segment of a fresh run never gets the flag,
and a missing checkpoint file merely omits the flag. -/
theorem claim2_resume_flag_iff (paths : PathsConfig) (cfg : TrainingConfig)
    (fe : String → Bool) (s e : Int) (fst : Bool)
    (hsafe : SafeConfig paths cfg s e) :
    "--start_checkpoint" ∈ build_train_command paths cfg fe s e fst ↔
      ((0 < s ∨ fst = false) ∧ fe (checkpointPath paths s) = true) := by
  constructor
  · intro hmem
    unfold build_train_command at hmem
    rcases List.mem_append.mp hmem with hbase | hres
    · exfalso
      have hnot : "--start_checkpoint" ∉
          (["uv", "run", "python", "train.py"] ++ optArgs (argTable paths cfg e) ++
            boolArgs cfg ++ listArgs cfg) := by
        intro hm
        rcases List.mem_append.mp hm with hm | hlst
        rcases List.mem_append.mp hm with hm | hbool
        rcases List.mem_append.mp hm with hlit | hopt
        · simp at hlit
        · refine not_mem_optArgs (by decide) ?_ (argTable_safe hsafe) hopt
          intro pr hpr
          fin_cases hpr <;> simp
        · exact not_mem_boolArgs cfg (by decide) (by decide) (by decide) hbool
        · exact not_mem_listArgs (by decide) hsafe.2.2.2.2.2.2.2.2.2.2.2.2.2.2.2.1
            hsafe.2.2.2.2.2.2.2.2.2.2.2.2.2.2.2.2.1
            hsafe.2.2.2.2.2.2.2.2.2.2.2.2.2.2.2.2.2 (by decide) (by decide) (by decide) hlst
      exact hnot hbase
    · unfold resumeArgs at hres
      split_ifs at hres with hc hex
      · exact ⟨hc, hex⟩
      · simp at hres
      · simp at hres
  · rintro ⟨hc, hex⟩
    apply List.mem_append.mpr
    right
    unfold resumeArgs
    rw [if_pos hc, if_pos hex]
    exact List.mem_cons_self _ _

/-- Witness for C2: with the default configuration, a fresh first segment gets
no resume flag, while a continuation segment starting at 7000 whose checkpoint
file exists gets it. -/
theorem claim2_witness :
    ("--start_checkpoint" ∉
      build_train_command samplePaths sampleConfig
        (fun p => p == "/out/model/chkpnt7000.pth") 0 7000 true) ∧
    ("--start_checkpoint" ∈
      build_train_command samplePaths sampleConfig
        (fun p => p == "/out/model/chkpnt7000.pth") 7000 30000 false) := by
  constructor
  · intro hmem
    have h := (claim2_resume_flag_iff samplePaths sampleConfig
      (fun p => p == "/out/model/chkpnt7000.pth") 0 7000 true (by decide)).mp hmem
    rcases h.1 with hlt | hfst
    · exact absurd hlt (by decide)
    · exact absurd hfst (by decide)
  · exact (claim2_resume_flag_iff samplePaths sampleConfig
      (fun p => p == "/out/model/chkpnt7000.pth") 7000 30000 false (by decide)).mpr
      ⟨Or.inl (by decide), by decide⟩

theorem count_optFlag_safe {tok : String} (flag : String) (v : Option String)
    (hv : SafeVal v) (htok : tok ∈ flagUniverse) :
    (optFlag flag v).count tok = if flag = tok ∧ v.isSome then 1 else 0 := by
  cases v with
  | none => simp [optFlag]
  | some s =>
    have hs : ¬ s = tok := fun h => (hv s rfl) (h ▸ htok)
    by_cases hf : flag = tok
    · subst hf
      simp [optFlag, List.count_cons, hs]
    · simp [optFlag, List.count_cons, hs, hf]

theorem count_optArgs_safe {tok : String} (htok : tok ∈ flagUniverse) :
    ∀ (tbl : List (String × Option String)), (∀ pr ∈ tbl, SafeVal pr.2) →
      (optArgs tbl).count tok = tableCount tok tbl := by
  intro tbl
  induction tbl with
  | nil => intro _; rfl
  | cons pr rest ih =>
    intro hv
    have hstep : optArgs (pr :: rest) = optFlag pr.1 pr.2 ++ optArgs rest := rfl
    rw [hstep, List.count_append,
      count_optFlag_safe pr.1 pr.2 (hv pr (List.mem_cons_self pr rest)) htok,
      ih (fun q hq => hv q (List.mem_cons_of_mem pr hq))]
    rfl

theorem count_cmd {paths : PathsConfig} {cfg : TrainingConfig}
    {fe : String → Bool} {s e : Int} {fst : Bool} (tok : String)
    (htok : tok ∈ flagUniverse) (hsafe : SafeConfig paths cfg s e)
    (h1 : tok ≠ "--eval") (h2 : tok ≠ "--quiet") (h3 : tok ≠ "--disable_viewer")
    (h4 : tok ≠ "--test_iterations") (h5 : tok ≠ "--save_iterations")
    (h6 : tok ≠ "--checkpoint_iterations") (h7 : tok ≠ "--start_checkpoint") :
    (build_train_command paths cfg fe s e fst).count tok =
      tableCount tok (argTable paths cfg e) := by
  unfold build_train_command
  rw [List.count_append, List.count_append, List.count_append, List.count_append,
    List.count_eq_zero.mpr (flagUniverse_not_program tok htok),
    count_optArgs_safe htok _ (argTable_safe hsafe),
    List.count_eq_zero.mpr (not_mem_boolArgs cfg h1 h2 h3),
    List.count_eq_zero.mpr (not_mem_listArgs htok
      hsafe.2.2.2.2.2.2.2.2.2.2.2.2.2.2.2.1
      hsafe.2.2.2.2.2.2.2.2.2.2.2.2.2.2.2.2.1
      hsafe.2.2.2.2.2.2.2.2.2.2.2.2.2.2.2.2.2 h4 h5 h6),
    List.count_eq_zero.mpr (not_mem_resumeArgs h7
      (fun heq => hsafe.2.2.2.1 (heq ▸ htok)))]
  omega

theorem optArgs_infix :
    ∀ (tbl : List (String × Option String)) (flag v : String),
      (flag, some v) ∈ tbl → ∃ l r, optArgs tbl = l ++ [flag, v] ++ r := by
  intro tbl
  induction tbl with
  | nil => intro flag v h; simp at h
  | cons pr rest ih =>
    intro flag v h
    rcases List.mem_cons.mp h with heq | hmem
    · exact ⟨[], optArgs rest, by rw [← heq]; rfl⟩
    · obtain ⟨l, r, he⟩ := ih flag v hmem
      exact ⟨optFlag pr.1 pr.2 ++ l, r, by
        have hstep : optArgs (pr :: rest) = optFlag pr.1 pr.2 ++ optArgs rest := rfl
        rw [hstep, he]
        simp [List.append_assoc]⟩

theorem cmd_infix {paths : PathsConfig} {cfg : TrainingConfig}
    {fe : String → Bool} {s e : Int} {fst : Bool} (flag v : String)
    (hmem : (flag, some v) ∈ argTable paths cfg e) :
    ∃ l r, build_train_command paths cfg fe s e fst = l ++ [flag, v] ++ r := by
  obtain ⟨l, r, he⟩ := optArgs_infix _ flag v hmem
  refine ⟨["uv", "run", "python", "train.py"] ++ l,
    r ++ (boolArgs cfg ++ listArgs cfg ++ resumeArgs paths fe s fst), ?_⟩
  unfold build_train_command
  rw [he]
  simp [List.append_assoc]

/-- Note C8. The built training command passes exactly one `--iterations`
flag, and the value immediately following it is the rendered end boundary of
the segment — the override installed by the builder — not the job's configured
total. -/
theorem claim8_segment_iterations (paths : PathsConfig) (cfg : TrainingConfig)
    (fe : String → Bool) (s e : Int) (fst : Bool)
    (hsafe : SafeConfig paths cfg s e) :
    (build_train_command paths cfg fe s e fst).count "--iterations" = 1 ∧
    ∃ l r, build_train_command paths cfg fe s e fst =
      l ++ ["--iterations", toString e] ++ r := by
  constructor
  · rw [count_cmd "--iterations" (by decide) hsafe (by decide) (by decide) (by decide)
      (by decide) (by decide) (by decide) (by decide)]
    simp [tableCount, argTable]
  · exact cmd_infix "--iterations" (toString e) (by simp [argTable])

/-- Witness for C8: the command built for the segment ending at 7000 under the
default configuration carries `--iterations 7000` exactly once. -/
theorem claim8_witness :
    (build_train_command samplePaths sampleConfig (fun _ => false) 0 7000 true).count
      "--iterations" = 1 ∧
    ∃ l r, build_train_command samplePaths sampleConfig (fun _ => false) 0 7000 true =
      l ++ ["--iterations", toString (7000 : Int)] ++ r :=
  claim8_segment_iterations samplePaths sampleConfig (fun _ => false) 0 7000 true (by decide)

/-- Counterexample for C6. The claim names `rotation_lr`, `opacity_lr`,
`feature_lr`, `sh_degree`, `position_lr_delay_mult` and `position_lr_max_steps`
as configured hyperparameters that receive flags, but the builder's `arg_map`
has no entry for any of them: with the dataclass-default configuration (all of
them set), the built command contains none of these flags. -/
theorem claim6_counterexample :
    sampleConfig.rotation_lr = some "0.001" ∧
    sampleConfig.sh_degree = some "3" ∧
    "--rotation_lr" ∉
      build_train_command samplePaths sampleConfig (fun _ => false) 0 7000 true ∧
    "--opacity_lr" ∉
      build_train_command samplePaths sampleConfig (fun _ => false) 0 7000 true ∧
    "--feature_lr" ∉
      build_train_command samplePaths sampleConfig (fun _ => false) 0 7000 true ∧
    "--sh_degree" ∉
      build_train_command samplePaths sampleConfig (fun _ => false) 0 7000 true ∧
    "--position_lr_delay_mult" ∉
      build_train_command samplePaths sampleConfig (fun _ => false) 0 7000 true ∧
    "--position_lr_max_steps" ∉
      build_train_command samplePaths sampleConfig (fun _ => false) 0 7000 true := by
  refine ⟨rfl, rfl, ?_, ?_, ?_, ?_, ?_, ?_⟩ <;> decide

/-- Note C6 (amended). For each parameter in the builder's mapping table
(`source_path`, `model_path`, the overridden `iterations`, and the eleven
mapped hyperparameters), the built training command contains exactly one
corresponding flag when the configured value is set and none when it is unset,
and every such flag is immediately followed by its configured value; the
configured parameters outside the table — `rotation_lr`, `opacity_lr`,
`feature_lr`, `sh_degree`, `position_lr_delay_mult`, `position_lr_max_steps` —
never receive a flag. -/
theorem claim6_amended_flags (paths : PathsConfig) (cfg : TrainingConfig)
    (fe : String → Bool) (s e : Int) (fst : Bool)
    (hsafe : SafeConfig paths cfg s e) :
    ((build_train_command paths cfg fe s e fst).count "--source_path" = 1) ∧
    ((build_train_command paths cfg fe s e fst).count "--model_path" = 1) ∧
    ((build_train_command paths cfg fe s e fst).count "--iterations" = 1) ∧
    ((build_train_command paths cfg fe s e fst).count "--densify_grad_threshold" =
      if cfg.densify_grad_threshold.isSome then 1 else 0) ∧
    ((build_train_command paths cfg fe s e fst).count "--densification_interval" =
      if cfg.densification_interval.isSome then 1 else 0) ∧
    ((build_train_command paths cfg fe s e fst).count "--densify_until_iter" =
      if cfg.densify_until_iter.isSome then 1 else 0) ∧
    ((build_train_command paths cfg fe s e fst).count "--opacity_reset_interval" =
      if cfg.opacity_reset_interval.isSome then 1 else 0) ∧
    ((build_train_command paths cfg fe s e fst).count "--position_lr_init" =
      if cfg.position_lr_init.isSome then 1 else 0) ∧
    ((build_train_command paths cfg fe s e fst).count "--position_lr_final" =
      if cfg.position_lr_final.isSome then 1 else 0) ∧
    ((build_train_command paths cfg fe s e fst).count "--scaling_lr" =
      if cfg.scaling_lr.isSome then 1 else 0) ∧
    ((build_train_command paths cfg fe s e fst).count "--resolution" =
      if cfg.resolution.isSome then 1 else 0) ∧
    ((build_train_command paths cfg fe s e fst).count "--lambda_dssim" =
      if cfg.lambda_dssim.isSome then 1 else 0) ∧
    ((build_train_command paths cfg fe s e fst).count "--data_device" =
      if cfg.data_device.isSome then 1 else 0) ∧
    ((build_train_command paths cfg fe s e fst).count "--optimizer_type" =
      if cfg.optimizer_type.isSome then 1 else 0) ∧
    (∀ flag v, (flag, some v) ∈ argTable paths cfg e →
      ∃ l r, build_train_command paths cfg fe s e fst = l ++ [flag, v] ++ r) ∧
    ("--rotation_lr" ∉ build_train_command paths cfg fe s e fst) ∧
    ("--opacity_lr" ∉ build_train_command paths cfg fe s e fst) ∧
    ("--feature_lr" ∉ build_train_command paths cfg fe s e fst) ∧
    ("--sh_degree" ∉ build_train_command paths cfg fe s e fst) ∧
    ("--position_lr_delay_mult" ∉ build_train_command paths cfg fe s e fst) ∧
    ("--position_lr_max_steps" ∉ build_train_command paths cfg fe s e fst) := by
  refine ⟨?_, ?_, ?_, ?_, ?_, ?_, ?_, ?_, ?_, ?_, ?_, ?_, ?_, ?_, ?_, ?_, ?_, ?_, ?_, ?_, ?_⟩
  · rw [count_cmd "--source_path" (by decide) hsafe (by decide) (by decide) (by decide)
      (by decide) (by decide) (by decide) (by decide)]
    simp [tableCount, argTable]
  · rw [count_cmd "--model_path" (by decide) hsafe (by decide) (by decide) (by decide)
      (by decide) (by decide) (by decide) (by decide)]
    simp [tableCount, argTable]
  · rw [count_cmd "--iterations" (by decide) hsafe (by decide) (by decide) (by decide)
      (by decide) (by decide) (by decide) (by decide)]
    simp [tableCount, argTable]
  · rw [count_cmd "--densify_grad_threshold" (by decide) hsafe (by decide) (by decide)
      (by decide) (by decide) (by decide) (by decide) (by decide)]
    simp [tableCount, argTable]
  · rw [count_cmd "--densification_interval" (by decide) hsafe (by decide) (by decide)
      (by decide) (by decide) (by decide) (by decide) (by decide)]
    simp [tableCount, argTable]
  · rw [count_cmd "--densify_until_iter" (by decide) hsafe (by decide) (by decide)
      (by decide) (by decide) (by decide) (by decide) (by decide)]
    simp [tableCount, argTable]
  · rw [count_cmd "--opacity_reset_interval" (by decide) hsafe (by decide) (by decide)
      (by decide) (by decide) (by decide) (by decide) (by decide)]
    simp [tableCount, argTable]
  · rw [count_cmd "--position_lr_init" (by decide) hsafe (by decide) (by decide)
      (by decide) (by decide) (by decide) (by decide) (by decide)]
    simp [tableCount, argTable]
  · rw [count_cmd "--position_lr_final" (by decide) hsafe (by decide) (by decide)
      (by decide) (by decide) (by decide) (by decide) (by decide)]
    simp [tableCount, argTable]
  · rw [count_cmd "--scaling_lr" (by decide) hsafe (by decide) (by decide)
      (by decide) (by decide) (by decide) (by decide) (by decide)]
    simp [tableCount, argTable]
  · rw [count_cmd "--resolution" (by decide) hsafe (by decide) (by decide)
      (by decide) (by decide) (by decide) (by decide) (by decide)]
    simp [tableCount, argTable]
  · rw [count_cmd "--lambda_dssim" (by decide) hsafe (by decide) (by decide)
      (by decide) (by decide) (by decide) (by decide) (by decide)]
    simp [tableCount, argTable]
  · rw [count_cmd "--data_device" (by decide) hsafe (by decide) (by decide)
      (by decide) (by decide) (by decide) (by decide) (by decide)]
    simp [tableCount, argTable]
  · rw [count_cmd "--optimizer_type" (by decide) hsafe (by decide) (by decide)
      (by decide) (by decide) (by decide) (by decide) (by decide)]
    simp [tableCount, argTable]
  · intro flag v hmem
    exact cmd_infix flag v hmem
  · exact not_mem_cmd (by decide) hsafe (by intro pr hpr; fin_cases hpr <;> simp)
      (by decide) (by decide) (by decide) (by decide) (by decide) (by decide) (by decide)
  · exact not_mem_cmd (by decide) hsafe (by intro pr hpr; fin_cases hpr <;> simp)
      (by decide) (by decide) (by decide) (by decide) (by decide) (by decide) (by decide)
  · exact not_mem_cmd (by decide) hsafe (by intro pr hpr; fin_cases hpr <;> simp)
      (by decide) (by decide) (by decide) (by decide) (by decide) (by decide) (by decide)
  · exact not_mem_cmd (by decide) hsafe (by intro pr hpr; fin_cases hpr <;> simp)
      (by decide) (by decide) (by decide) (by decide) (by decide) (by decide) (by decide)
  · exact not_mem_cmd (by decide) hsafe (by intro pr hpr; fin_cases hpr <;> simp)
      (by decide) (by decide) (by decide) (by decide) (by decide) (by decide) (by decide)
  · exact not_mem_cmd (by decide) hsafe (by intro pr hpr; fin_cases hpr <;> simp)
      (by decide) (by decide) (by decide) (by decide) (by decide) (by decide) (by decide)

/-- Witness for C6 (amended): under the default configuration the scaling
learning-rate flag appears exactly once and the unmapped
`--position_lr_max_steps` flag never appears. -/
theorem claim6_witness :
    (build_train_command samplePaths sampleConfig (fun _ => false) 0 7000 true).count
      "--scaling_lr" = 1 ∧
    "--position_lr_max_steps" ∉
      build_train_command samplePaths sampleConfig (fun _ => false) 0 7000 true := by
  have h := claim6_amended_flags samplePaths sampleConfig (fun _ => false) 0 7000 true
    (by decide)
  refine ⟨?_, h.2.2.2.2.2.2.2.2.2.2.2.2.2.2.2.2.2.2.2.2⟩
  have hc := h.2.2.2.2.2.2.2.2.2.1
  simpa [sampleConfig] using hc

/-! ### Helper lemmas about the checkpoint inventory -/

theorem mem_chkpntIters {x : Int} {entries : List String} :
    x ∈ chkpntIters entries ↔ ∃ n ∈ entries, parseChkpntName n = some x := by
  simp [chkpntIters, List.mem_filterMap]

theorem mem_pointCloudIters {x : Int} {pcE : Bool} {pcs : List (String × Bool)} :
    x ∈ pointCloudIters pcE pcs ↔
      pcE = true ∧ ∃ p ∈ pcs, p.2 = true ∧ parseIterationDirName p.1 = some x := by
  cases pcE with
  | false => simp [pointCloudIters]
  | true =>
    simp only [pointCloudIters, if_pos, List.mem_filterMap, true_and]
    constructor
    · rintro ⟨p, hp, hpar⟩
      by_cases h2 : p.2 = true
      · rw [if_pos h2] at hpar
        exact ⟨p, hp, h2, hpar⟩
      · rw [if_neg h2] at hpar
        cases hpar
    · rintro ⟨p, hp, h2, hpar⟩
      exact ⟨p, hp, by rw [if_pos h2]; exact hpar⟩

/-- Counterexample for C1. When both naming sources report iteration 7000
(`chkpnt7000.pth` and `point_cloud/iteration_7000/`), the inventory is
`[7000, 7000]`: sorted, but not deduplicated, so it is not a list with no
duplicates. -/
theorem claim1_counterexample :
    detect_existing_checkpoints bothSourcesState = [7000, 7000] ∧
    ¬ (detect_existing_checkpoints bothSourcesState).Nodup := by
  exact ⟨by decide, by decide⟩

/-- Note C1 (amended). For every model directory state, the inventory is an
ascending list whose members are exactly the iterations parsed from
`chkpnt*.pth` entries and from `point_cloud/iteration_*` subdirectories
(unparsable names silently skipped), and it is empty when the directory does
not exist; the same iteration may however occur twice when both sources report
it, since the code sorts the concatenation without deduplicating. -/
theorem claim1_amended_inventory (st : ModelDirState) :
    List.Sorted (· ≤ ·) (detect_existing_checkpoints st) ∧
    (st.dirExists = false → detect_existing_checkpoints st = []) ∧
    (∀ x : Int, x ∈ detect_existing_checkpoints st ↔
      st.dirExists = true ∧
        ((∃ n ∈ st.entries, parseChkpntName n = some x) ∨
         (st.pointCloudExists = true ∧
           ∃ p ∈ st.pointCloudEntries, p.2 = true ∧
             parseIterationDirName p.1 = some x))) := by
  cases hd : st.dirExists with
  | false =>
    refine ⟨?_, fun _ => ?_, ?_⟩
    · simp [detect_existing_checkpoints, hd]
    · simp [detect_existing_checkpoints, hd]
    · intro x
      simp [detect_existing_checkpoints, hd]
  | true =>
    have hdet : detect_existing_checkpoints st =
        List.insertionSort (· ≤ ·)
          (chkpntIters st.entries ++
            pointCloudIters st.pointCloudExists st.pointCloudEntries) := by
      simp [detect_existing_checkpoints, hd]
    refine ⟨?_, fun hfalse => ?_, ?_⟩
    · rw [hdet]
      exact List.sorted_insertionSort _ _
    · cases hfalse
    · intro x
      rw [hdet, (List.perm_insertionSort _ _).mem_iff, List.mem_append,
        mem_chkpntIters, mem_pointCloudIters]
      simp

/-- Witness for C1 (amended): the inventory of the dual-source directory is
sorted, and 7000 is a member exactly because some entry parses to it. -/
theorem claim1_witness :
    List.Sorted (· ≤ ·) (detect_existing_checkpoints bothSourcesState) ∧
    ((7000 : Int) ∈ detect_existing_checkpoints bothSourcesState ↔
      bothSourcesState.dirExists = true ∧
        ((∃ n ∈ bothSourcesState.entries, parseChkpntName n = some 7000) ∨
         (bothSourcesState.pointCloudExists = true ∧
           ∃ p ∈ bothSourcesState.pointCloudEntries, p.2 = true ∧
             parseIterationDirName p.1 = some 7000))) :=
  ⟨(claim1_amended_inventory bothSourcesState).1,
   (claim1_amended_inventory bothSourcesState).2.2 7000⟩

/-! ### Helper lemmas about the segment scheduler -/

theorem pairwise_lt_pySortedSet (l : List Int) :
    (pySortedSet l).Pairwise (· < ·) := by
  have hs : (pySortedSet l).Pairwise (· ≤ ·) := List.sorted_insertionSort _ _
  have hn : (pySortedSet l).Nodup :=
    (List.perm_insertionSort (· ≤ ·) l.dedup).nodup_iff.mpr l.nodup_dedup
  exact (hs.and hn).imp fun h => lt_of_le_of_ne h.1 h.2

theorem eval_points_eq (r t : Int) (test save : List Int) :
    eval_points r t test save =
      ((pySortedSet (test ++ save)).filter (fun p => r < p ∧ p < t)) ++ [t] := by
  unfold eval_points
  by_cases hp : (pySortedSet (test ++ save)).filter (fun p => r < p ∧ p < t) = []
  · rw [if_pos (Or.inl hp)]
  · have hmem := pyMax_mem hp
    have hfilt := List.of_mem_filter hmem
    simp only [decide_eq_true_eq] at hfilt
    rw [if_pos (Or.inr hfilt.2)]

theorem eval_points_bounds (r t : Int) (test save : List Int) (h : r < t) :
    ∀ p ∈ eval_points r t test save, r < p ∧ p ≤ t := by
  rw [eval_points_eq r t test save]
  intro p hp
  rcases List.mem_append.mp hp with hp | hp
  · have hfilt := List.of_mem_filter hp
    simp only [decide_eq_true_eq] at hfilt
    exact ⟨hfilt.1, le_of_lt hfilt.2⟩
  · rcases List.mem_singleton.mp hp with rfl
    exact ⟨h, le_refl p⟩

theorem eval_points_pairwise (r t : Int) (test save : List Int) (h : r < t) :
    (eval_points r t test save).Pairwise (· < ·) := by
  rw [eval_points_eq r t test save]
  apply List.pairwise_append.mpr
  refine ⟨(pairwise_lt_pySortedSet _).sublist (List.filter_sublist _), ?_, ?_⟩
  · simp
  · intro a ha b hb
    rcases List.mem_singleton.mp hb with rfl
    have hfilt := List.of_mem_filter ha
    simp only [decide_eq_true_eq] at hfilt
    exact hfilt.2

theorem segments_map_snd :
    ∀ (pts : List Int) (s : Int), (s :: pts).Pairwise (· < ·) →
      (segments s pts).map Prod.snd = pts := by
  intro pts
  induction pts with
  | nil => intro s _; rfl
  | cons e rest ih =>
    intro s hpw
    have hse : s < e := (List.pairwise_cons.mp hpw).1 e (List.mem_cons_self e rest)
    have ht : (e :: rest).Pairwise (· < ·) := (List.pairwise_cons.mp hpw).2
    have hstep : segments s (e :: rest) =
        if e ≤ s then segments s rest else (s, e) :: segments e rest := rfl
    rw [hstep, if_neg (not_le.mpr hse)]
    simp [ih e ht]

/-- Note C4. With intermediate evaluation enabled and a start strictly below
the total, the evaluation boundaries computed by the training flow are
strictly increasing, every boundary lies strictly within the half-open
interval from the start (exclusive) to the total (inclusive), and the last
executed training segment ends exactly at the total. -/
theorem claim4_schedule_boundaries (r t : Int) (test save : List Int) (h : r < t) :
    (eval_points r t test save).Pairwise (· < ·) ∧
    (∀ p ∈ eval_points r t test save, r < p ∧ p ≤ t) ∧
    ((segments r (eval_points r t test save)).map Prod.snd).getLast? = some t := by
  refine ⟨eval_points_pairwise r t test save h, eval_points_bounds r t test save h, ?_⟩
  have hpw : (r :: eval_points r t test save).Pairwise (· < ·) :=
    List.pairwise_cons.mpr
      ⟨fun p hp => (eval_points_bounds r t test save h p hp).1,
       eval_points_pairwise r t test save h⟩
  rw [segments_map_snd _ r hpw, eval_points_eq r t test save, List.getLast?_concat]

/-- Witness for C4 (the scenario of the spec): start 0, total 30000, test and
save points at 7000 and 30000 give boundaries 7000 then 30000, and the last
segment ends at 30000. -/
theorem claim4_witness :
    eval_points 0 30000 [7000, 30000] [7000, 30000] = [7000, 30000] ∧
    segments 0 (eval_points 0 30000 [7000, 30000] [7000, 30000]) =
      [(0, 7000), (7000, 30000)] ∧
    ((segments 0 (eval_points 0 30000 [7000, 30000] [7000, 30000])).map
      Prod.snd).getLast? = some 30000 :=
  ⟨by decide, by decide,
   (claim4_schedule_boundaries 0 30000 [7000, 30000] [7000, 30000] (by decide)).2.2⟩

/-! ### Helper lemmas about the failure policy -/

theorem runStages_all_ok (w : ExecWorld) (eR eM : Bool)
    (htr : ∀ s e, w.trainExit s e = 0) :
    ∀ stages : List PipelineStage,
      (runStages w eR eM stages).completed = true ∧
      (runStages w eR eM stages).executed = stages := by
  intro stages
  induction stages with
  | nil => exact ⟨rfl, rfl⟩
  | cons st rest ih =>
    have hok : (runStage w eR eM st).2 = Except.ok () := by
      cases st with
      | trainSeg s e => simp [runStage, run_training_segment, htr s e]
      | render it => exact runStage_render_ok w eR eM it
      | metrics it => exact runStage_metrics_ok w eR eM it
    rw [runStages_cons_ok w eR eM st rest hok]
    exact ⟨ih.1, by simp [ih.2]⟩

theorem runStages_completed_indep (w w' : ExecWorld) (eR eM : Bool)
    (hw : w'.trainExit = w.trainExit) :
    ∀ stages : List PipelineStage,
      (runStages w' eR eM stages).completed = (runStages w eR eM stages).completed := by
  intro stages
  induction stages with
  | nil => rfl
  | cons st rest ih =>
    cases st with
    | trainSeg s e =>
      by_cases hz : w.trainExit s e = 0
      · have hok : (runStage w eR eM (.trainSeg s e)).2 = Except.ok () := by
          simp [runStage, run_training_segment, hz]
        have hok' : (runStage w' eR eM (.trainSeg s e)).2 = Except.ok () := by
          simp [runStage, run_training_segment, hw, hz]
        rw [runStages_cons_ok w eR eM _ rest hok, runStages_cons_ok w' eR eM _ rest hok']
        exact ih
      · have herr : (runStage w eR eM (.trainSeg s e)).2 =
            Except.error ("训练段失败 (返回码 " ++ toString (w.trainExit s e) ++ ")") := by
          simp [runStage, run_training_segment, hz]
        have herr' : (runStage w' eR eM (.trainSeg s e)).2 =
            Except.error ("训练段失败 (返回码 " ++ toString (w.trainExit s e) ++ ")") := by
          simp [runStage, run_training_segment, hw, hz]
        rw [runStages_cons_err w eR eM _ rest _ herr,
          runStages_cons_err w' eR eM _ rest _ herr']
    | render it =>
      rw [runStages_cons_ok w eR eM _ rest (runStage_render_ok w eR eM it),
        runStages_cons_ok w' eR eM _ rest (runStage_render_ok w' eR eM it)]
      exact ih
    | metrics it =>
      rw [runStages_cons_ok w eR eM _ rest (runStage_metrics_ok w eR eM it),
        runStages_cons_ok w' eR eM _ rest (runStage_metrics_ok w' eR eM it)]
      exact ih

/-- Note C7. A non-zero render or metrics exit is absorbed: the executor
returns normally and logs an error event whose message carries the captured
stderr, so when every training segment succeeds the whole flow executes every
stage and completes — the completion status does not depend on the render or
metrics results at all.  Only a non-zero training exit raises, and a failing
training segment both marks the run as not completed and cuts off every
subsequent stage. -/
theorem claim7_failure_policy (w : ExecWorld) (eR eM : Bool)
    (r t : Int) (test save : List Int) (ie : Bool) :
    ((∀ s e, w.trainExit s e = 0) →
      (runStages w eR eM (execute_training_flow r t test save ie)).completed = true ∧
      (runStages w eR eM (execute_training_flow r t test save ie)).executed =
        execute_training_flow r t test save ie) ∧
    (∀ it res, res.exitCode ≠ 0 →
      (run_rendering true it res).2 = Except.ok () ∧
      ∃ ev ∈ (run_rendering true it res).1, ev.level = .error ∧
        ∃ pre, ev.msg = pre ++ res.stderr) ∧
    (∀ it res, res.exitCode ≠ 0 →
      (run_metrics true it res).2 = Except.ok () ∧
      ∃ ev ∈ (run_metrics true it res).1, ev.level = .error ∧
        ∃ pre, ev.msg = pre ++ res.stderr) ∧
    (∀ ec s e, ec ≠ 0 → ∃ m, (run_training_segment ec s e).2 = Except.error m) ∧
    (∀ s e rest, w.trainExit s e ≠ 0 →
      (runStages w eR eM (PipelineStage.trainSeg s e :: rest)).completed = false ∧
      (runStages w eR eM (PipelineStage.trainSeg s e :: rest)).executed =
        [PipelineStage.trainSeg s e]) ∧
    (∀ w' : ExecWorld, w'.trainExit = w.trainExit →
      (runStages w' eR eM (execute_training_flow r t test save ie)).completed =
        (runStages w eR eM (execute_training_flow r t test save ie)).completed) := by
  refine ⟨?_, ?_, ?_, ?_, ?_, ?_⟩
  · intro htr
    exact runStages_all_ok w eR eM htr _
  · intro it res h
    refine ⟨run_rendering_never_raises true it res,
      ⟨.error, stageLabel "渲染" "最终渲染" it ++ " 失败 (返回码 " ++
        toString res.exitCode ++ "): " ++ res.stderr⟩, ?_, rfl, ⟨_, rfl⟩⟩
    simp [run_rendering, h]
  · intro it res h
    refine ⟨run_metrics_never_raises true it res,
      ⟨.error, stageLabel "评估" "最终评估" it ++ " 失败 (返回码 " ++
        toString res.exitCode ++ "): " ++ res.stderr⟩, ?_, rfl, ⟨_, rfl⟩⟩
    simp [run_metrics, h]
  · intro ec s e h
    refine ⟨"训练段失败 (返回码 " ++ toString ec ++ ")", ?_⟩
    simp [run_training_segment, h]
  · intro s e rest h
    have herr : (runStage w eR eM (.trainSeg s e)).2 =
        Except.error ("训练段失败 (返回码 " ++ toString (w.trainExit s e) ++ ")") := by
      simp [runStage, run_training_segment, h]
    rw [runStages_cons_err w eR eM _ rest _ herr]
    exact ⟨rfl, rfl⟩
  · intro w' hw
    exact runStages_completed_indep w w' eR eM hw _

/-- Witness for C7: with a toolchain whose render and metrics calls all fail
but whose training succeeds, the scheduled flow from 0 to 2 completes, the
failing render call returns normally, and a failing training exit raises. -/
theorem claim7_witness :
    (runStages worldEvalFails true true (execute_training_flow 0 2 [1] [] true)).completed
      = true ∧
    (run_rendering true (some 1) ⟨1, "", "cuda error"⟩).2 = Except.ok () ∧
    (∃ m, (run_training_segment 3 0 2).2 = Except.error m) := by
  have h := claim7_failure_policy worldEvalFails true true 0 2 [1] [] true
  exact ⟨(h.1 (fun _ _ => rfl)).1,
    (h.2.1 (some 1) ⟨1, "", "cuda error"⟩ (by decide)).1,
    h.2.2.2.1 3 0 2 (by decide)⟩
